import Mathlib

/-!
Verification of the Intent & Temporal Expression Resolution Engine of the
Personal-Assistant-SION repository.

The definitions below are a shallow embedding of the Python sources:
- `backend/nlu/app/intent_classifier.py` (rule-based intent classifier and
  regular-expression entity extractor),
- `client/app/llm_agent.py` (`_check_calendar` date-range resolution,
  `_parse_date`, `_add_calendar_event`),
- `client/app/google_services.py` (`create_all_day_event`,
  `_build_recurrence_rule`).

Modelling conventions:
- Python `re` patterns are embedded as values of a small regular-expression
  syntax `RE`; matching is implemented with Python backtracking preference
  (alternatives in written order, greedy repetition), and `re.search` /
  `re.finditer` are implemented on top of it (leftmost match, non-overlapping
  iteration).
- Python floats are modelled as rationals (`Rat`); the confidence arithmetic
  concerned here is exact in either representation.
- `datetime` values are modelled by their calendar date (proleptic Gregorian);
  the time of day plays no role in the properties below.  A `datetime`
  constructor invocation that would raise `ValueError` for an out-of-range
  month is modelled by `Option`.
- `datetime.now()` calls inside the agent are modelled by an explicit `clock`
  parameter holding the ambient clock value at the call.
-/

/-! ## A small regular-expression engine (Python `re` subset) -/

/-- Regular-expression syntax covering the constructs used by the source's
pattern tables: literal characters, character classes, alternation,
concatenation and (greedy) star. -/
inductive RE where
  | eps : RE
  | chr (c : Char) : RE
  | cls (p : Char → Bool) : RE
  | alt (r1 r2 : RE) : RE
  | cat (r1 r2 : RE) : RE
  | star (r1 : RE) : RE

/-- All matches of `step` iterated (greedy star), in Python backtracking
preference order: longer iterations first, the empty match last.  Empty
single-step matches are discarded, as Python's engine does not loop on them.
`fuel` bounds the number of iterations; every kept iteration consumes at
least one character, so `length + 1` fuel is always sufficient. -/
def starMatches (step : List Char → List (List Char × List Char)) :
    Nat → List Char → List (List Char × List Char)
  | 0, s => [([], s)]
  | fuel + 1, s =>
      ((step s).filter (fun m => ¬ m.1.isEmpty)).foldr
        (fun m1 acc =>
          ((starMatches step fuel m1.2).map
            (fun m2 => (m1.1 ++ m2.1, m2.2))) ++ acc)
        [([], s)]

/-- All ways `r` can match a prefix of `s`, as (consumed, rest) pairs, in
Python backtracking preference order (first listed alternative first,
greedy repetition longest first). -/
def reMatches : RE → List Char → List (List Char × List Char)
  | .eps, s => [([], s)]
  | .chr _, [] => []
  | .chr c, x :: xs => if x = c then [([x], xs)] else []
  | .cls _, [] => []
  | .cls p, x :: xs => if p x then [([x], xs)] else []
  | .alt r1 r2, s => reMatches r1 s ++ reMatches r2 s
  | .cat r1 r2, s =>
      (reMatches r1 s).foldr
        (fun m1 acc =>
          ((reMatches r2 m1.2).map (fun m2 => (m1.1 ++ m2.1, m2.2))) ++ acc)
        []
  | .star r1, s => starMatches (reMatches r1) (s.length + 1) s

/-- The match Python's engine would produce for `r` anchored at the start of
`s` (the first match in backtracking preference order), if any. -/
def reFirst (r : RE) (s : List Char) : Option (List Char) :=
  (reMatches r s).head?.map Prod.fst

/-- Leftmost match of `r` in `s`: Python `re.search`.  Returns the start
position (offset by `i`) and the consumed characters. -/
def searchPos (r : RE) : List Char → Nat → Option (Nat × List Char)
  | [], i =>
      match reFirst r [] with
      | some m => some (i, m)
      | none => none
  | x :: xs, i =>
      match reFirst r (x :: xs) with
      | some m => some (i, m)
      | none => searchPos r xs (i + 1)

/-- Boolean form of Python `re.search(pattern, s) is not None`. -/
def searchB (r : RE) (s : List Char) : Bool :=
  (searchPos r s 0).isSome

/-- Python `re.finditer`: repeatedly search from the end of the previous
match (advancing at least one character), collecting (position, match)
pairs.  `fuel` bounds the loop. -/
def finditerAux (r : RE) : Nat → List Char → Nat → List (Nat × List Char)
  | 0, _, _ => []
  | fuel + 1, s, pos =>
      match searchPos r s 0 with
      | none => []
      | some (i, m) =>
          let step := i + max m.length 1
          (pos + i, m) :: finditerAux r fuel (s.drop step) (pos + step)

/-- All non-overlapping matches of `r` in `s`, leftmost first. -/
def finditer (r : RE) (s : List Char) : List (Nat × List Char) :=
  finditerAux r (s.length + 1) s 0

/-! ### Helpers for writing the source's patterns -/

/-- Python `\d` (ASCII digits suffice for the inputs concerned). -/
def isDigitCh (c : Char) : Bool := c.isDigit

/-- Python `\s` (the ASCII whitespace characters). -/
def isSpaceCh (c : Char) : Bool :=
  c = ' ' ∨ c = '\t' ∨ c = '\n' ∨ c = '\x0d' ∨ c = '\x0b' ∨ c = '\x0c'

/-- The character class `[가-힣]` (Hangul syllables). -/
def isHangulCh (c : Char) : Bool := '가' ≤ c ∧ c ≤ '힣'

/-- The character class `[가-힣a-zA-Z0-9_]`. -/
def isWordKoCh (c : Char) : Bool :=
  isHangulCh c ∨ c.isAlpha ∨ c.isDigit ∨ c = '_'

/-- Literal string pattern (case-sensitive). -/
def lit (s : String) : RE :=
  s.data.foldr (fun c r => RE.cat (RE.chr c) r) RE.eps

/-- Literal string pattern under `re.IGNORECASE` (each character compared
case-insensitively; the identity on Hangul and digits). -/
def litCI (s : String) : RE :=
  s.data.foldr (fun c r => RE.cat (RE.cls (fun x => x.toLower = c.toLower)) r)
    RE.eps

/-- `\s*` -/
def spStar : RE := RE.star (RE.cls isSpaceCh)

/-- `.*` (Python `.` does not match a newline). -/
def dotStar : RE := RE.star (RE.cls (fun c => c ≠ '\n'))

/-- `r?` (greedy). -/
def reOpt (r : RE) : RE := RE.alt r RE.eps

/-- `a|b|c|...` with the written preference order. -/
def alts : List RE → RE
  | [] => RE.cls (fun _ => false)
  | [r] => r
  | r :: rs => RE.alt r (alts rs)

/-- `\d` -/
def reDigit : RE := RE.cls isDigitCh

/-- `\d{1,2}` (greedy). -/
def d12 : RE := RE.cat reDigit (reOpt reDigit)

/-- `\d{0,2}` (greedy). -/
def d02 : RE := RE.alt (RE.cat reDigit (reOpt reDigit)) RE.eps

/-- `\d+` (greedy). -/
def dPlus : RE := RE.cat reDigit (RE.star reDigit)

/-- `[가-힣]{2,4}` (greedy). -/
def hangul24 : RE :=
  RE.cat (RE.cls isHangulCh) (RE.cat (RE.cls isHangulCh)
    (RE.cat (reOpt (RE.cls isHangulCh)) (reOpt (RE.cls isHangulCh))))

/-! ## `IntentClassifier.INTENT_PATTERNS` -/

/-- The class-level rule table `INTENT_PATTERNS` of
`backend/nlu/app/intent_classifier.py`, in source (dict insertion) order. -/
def INTENT_PATTERNS : List (String × List RE) :=
  [ ("schedule_check",
      [lit "일정", lit "스케줄", lit "약속",
       RE.cat (lit "오늘") (RE.cat spStar (lit "뭐")), lit "언제"]),
    ("schedule_add",
      [RE.cat (lit "일정") (RE.cat spStar
          (alts [lit "추가", lit "등록", lit "잡아"])),
       RE.cat (lit "약속") (RE.cat spStar
          (alts [lit "잡아", lit "만들어"]))]),
    ("schedule_delete",
      [RE.cat (lit "일정") (RE.cat spStar (alts [lit "삭제", lit "취소"])),
       RE.cat (lit "약속") (RE.cat spStar (alts [lit "취소", lit "삭제"]))]),
    ("email_check",
      [RE.cat (lit "이메일") (RE.cat spStar (alts [lit "확인", lit "읽어"])),
       RE.cat (lit "메일") (RE.cat spStar (alts [lit "확인", lit "읽어"])),
       RE.cat (lit "새") (RE.cat spStar (lit "메일"))]),
    ("email_send",
      [RE.cat (lit "이메일") (RE.cat spStar (alts [lit "보내", lit "전송"])),
       RE.cat (lit "메일") (RE.cat spStar (alts [lit "보내", lit "전송"]))]),
    ("file_search",
      [RE.cat (lit "파일") (RE.cat spStar (alts [lit "찾아", lit "검색"])),
       RE.cat (lit "어디") (RE.cat dotStar (lit "있")),
       lit "폴더"]),
    ("file_open",
      [RE.cat (lit "파일") (RE.cat spStar (alts [lit "열어", lit "실행"])),
       RE.cat (lit "문서") (RE.cat spStar (lit "열어"))]),
    ("app_open",
      [RE.cat (alts [lit "실행", lit "열어", lit "켜"])
          (RE.cat dotStar (alts [lit "앱", lit "프로그램", lit "어플"])),
       alts [lit "크롬", lit "브라우저", lit "메모장", lit "계산기"]]),
    ("web_search",
      [lit "검색",
       RE.cat (lit "찾아") (RE.cat dotStar (lit "줘")),
       RE.cat (lit "알려") (RE.cat dotStar (lit "줘"))]),
    ("weather_check",
      [lit "날씨", lit "기온",
       RE.cat (lit "비") (RE.cat spStar (lit "올까"))]),
    ("timer_set",
      [lit "타이머", lit "알람",
       RE.cat (lit "분") (RE.cat spStar (lit "후"))]),
    ("reminder_set",
      [lit "리마인더", lit "알림", lit "까먹지"]),
    ("system_control",
      [lit "볼륨", lit "음량", lit "밝기", lit "종료", lit "재부팅"]) ]

/-! ## `IntentClassifier.ENTITY_PATTERNS` -/

/-- Entity pattern for `"time"`:
`(\d{1,2}시\s*\d{0,2}분?|\d{1,2}:\d{2}|오전\s*\d{1,2}시|오후\s*\d{1,2}시)`. -/
def timeRE : RE :=
  alts
    [ RE.cat d12 (RE.cat (litCI "시") (RE.cat spStar
        (RE.cat d02 (reOpt (litCI "분"))))),
      RE.cat d12 (RE.cat (litCI ":") (RE.cat reDigit reDigit)),
      RE.cat (litCI "오전") (RE.cat spStar (RE.cat d12 (litCI "시"))),
      RE.cat (litCI "오후") (RE.cat spStar (RE.cat d12 (litCI "시"))) ]

/-- Entity pattern for `"date"`:
`(오늘|내일|모레|\d{1,2}월\s*\d{1,2}일|다음\s*주|이번\s*주)`. -/
def dateRE : RE :=
  alts
    [ litCI "오늘", litCI "내일", litCI "모레",
      RE.cat d12 (RE.cat (litCI "월") (RE.cat spStar
        (RE.cat d12 (litCI "일")))),
      RE.cat (litCI "다음") (RE.cat spStar (litCI "주")),
      RE.cat (litCI "이번") (RE.cat spStar (litCI "주")) ]

/-- Entity pattern for `"duration"`: `(\d+\s*(분|시간|초))`. -/
def durationRE : RE :=
  RE.cat dPlus (RE.cat spStar (alts [litCI "분", litCI "시간", litCI "초"]))

/-- Entity pattern for `"person"`: `([가-힣]{2,4}(?:씨|님|에게))`. -/
def personRE : RE :=
  RE.cat hangul24 (alts [litCI "씨", litCI "님", litCI "에게"])

/-- Entity pattern for `"app_name"`:
`(크롬|브라우저|메모장|계산기|엑셀|워드|파워포인트|비주얼\s*스튜디오)`. -/
def appNameRE : RE :=
  alts
    [ litCI "크롬", litCI "브라우저", litCI "메모장", litCI "계산기",
      litCI "엑셀", litCI "워드", litCI "파워포인트",
      RE.cat (litCI "비주얼") (RE.cat spStar (litCI "스튜디오")) ]

/-- Entity pattern for `"file_name"`:
`([가-힣a-zA-Z0-9_]+\.(txt|pdf|doc|docx|xlsx|pptx|py|js))`. -/
def fileNameRE : RE :=
  RE.cat (RE.cat (RE.cls isWordKoCh) (RE.star (RE.cls isWordKoCh)))
    (RE.cat (litCI ".")
      (alts [litCI "txt", litCI "pdf", litCI "doc", litCI "docx",
             litCI "xlsx", litCI "pptx", litCI "py", litCI "js"]))

/-- The class-level `ENTITY_PATTERNS` table, in source (dict insertion)
order. -/
def ENTITY_PATTERNS : List (String × RE) :=
  [ ("time", timeRE), ("date", dateRE), ("duration", durationRE),
    ("person", personRE), ("app_name", appNameRE), ("file_name", fileNameRE) ]

/-! ## `_classify_with_rules` and `extract_entities` -/

/-- Python `text.lower()` (ASCII case folding; the identity on Hangul). -/
def lowerStr (s : List Char) : List Char := s.map Char.toLower

/-- The inner loop of `_classify_with_rules`: `score` counts the patterns of
one intent that `re.search` finds in the text. -/
def countMatches : List RE → List Char → Nat
  | [], _ => 0
  | p :: ps, tl => (if searchB p tl then 1 else 0) + countMatches ps tl

/-- One step of the best-intent fold of `_classify_with_rules`: if this
intent's score is positive, normalize it as `min(score / len(patterns), 1.0)`
and keep it when it strictly beats the best score so far. -/
def scoreStep (tl : List Char) (b : String × Rat) (pr : String × List RE) :
    String × Rat :=
  let score := countMatches pr.2 tl
  if 0 < score then
    let ns : Rat := min ((score : Rat) / ((pr.2.length : Nat) : Rat)) 1
    if b.2 < ns then (pr.1, ns) else b
  else b

/-- The full best-intent fold over `INTENT_PATTERNS`, starting from
`("unknown", 0.0)`. -/
def ruleFold (tl : List Char) : String × Rat :=
  INTENT_PATTERNS.foldl (scoreStep tl) ("unknown", 0)

/-- `_classify_with_rules` up to but excluding the confidence calibration:
the `(best_intent, best_score)` pair after the `llm_chat` fallback
(`best_intent == "unknown" and len(text) > 5`). -/
def classify_rule_best (text : String) : String × Rat :=
  let b := ruleFold (lowerStr text.data)
  if b.1 = "unknown" ∧ 5 < text.length then ("llm_chat", (1 : Rat) / 2) else b

/-- `IntentClassifier._classify_with_rules`: returns
`(best_intent, 0.3 + best_score * 0.6)`. -/
def classify_with_rules (text : String) : String × Rat :=
  ((classify_rule_best text).1,
   3 / 10 + (classify_rule_best text).2 * (6 / 10))

/-- One extracted entity, as the dict built by `extract_entities`. -/
structure Entity where
  etype : String
  value : String
  startPos : Nat
  endPos : Nat
deriving DecidableEq

/-- Concatenation of the per-pattern match lists. -/
def concatMap (f : α → List β) : List α → List β
  | [] => []
  | x :: xs => f x ++ concatMap f xs

/-- `IntentClassifier.extract_entities`: for each entity kind in table order,
emit one entity per `re.finditer` match (with `re.IGNORECASE`). -/
def extract_entities (text : String) : List Entity :=
  concatMap
    (fun pr =>
      (finditer pr.2 text.data).map
        (fun m =>
          { etype := pr.1, value := String.mk m.2,
            startPos := m.1, endPos := m.1 + m.2.length }))
    ENTITY_PATTERNS

/-! ## Classifier lemmas -/

/-- If no pattern of `ps` matches `tl`, the intent's score is `0`. -/
theorem countMatches_eq_zero {ps : List RE} {tl : List Char}
    (h : ∀ p ∈ ps, searchB p tl = false) : countMatches ps tl = 0 := by
  induction ps with
  | nil => rfl
  | cons p ps ih =>
      simp only [countMatches, h p (List.mem_cons_self p ps),
        ih (fun q hq => h q (List.mem_cons_of_mem p hq))]
      rfl

/-- If no pattern of any intent in the table matches, the best-intent fold
leaves its accumulator unchanged. -/
theorem foldl_scoreStep_id (tl : List Char) :
    ∀ (l : List (String × List RE)) (b : String × Rat),
      (∀ pr ∈ l, ∀ p ∈ pr.2, searchB p tl = false) →
      l.foldl (scoreStep tl) b = b := by
  intro l
  induction l with
  | nil => intro b _; rfl
  | cons x xs ih =>
      intro b h
      have hx : countMatches x.2 tl = 0 :=
        countMatches_eq_zero (h x (List.mem_cons_self x xs))
      have hstep : scoreStep tl b x = b := by
        simp only [scoreStep, hx]
        rfl
      simp only [List.foldl_cons, hstep]
      exact ih b (fun pr hpr => h pr (List.mem_cons_of_mem x hpr))

/-- The best score tracked by the fold stays in `[0, 1]`. -/
theorem foldl_scoreStep_bounds (tl : List Char) :
    ∀ (l : List (String × List RE)) (b : String × Rat),
      0 ≤ b.2 → b.2 ≤ 1 →
      0 ≤ (l.foldl (scoreStep tl) b).2 ∧ (l.foldl (scoreStep tl) b).2 ≤ 1 := by
  intro l
  induction l with
  | nil => intro b h0 h1; exact ⟨h0, h1⟩
  | cons x xs ih =>
      intro b h0 h1
      have hstep : 0 ≤ (scoreStep tl b x).2 ∧ (scoreStep tl b x).2 ≤ 1 := by
        simp only [scoreStep]
        by_cases hs : 0 < countMatches x.2 tl
        · simp only [hs, if_true]
          by_cases hlt :
              b.2 < min ((countMatches x.2 tl : Rat) /
                ((x.2.length : Nat) : Rat)) 1
          · simp only [hlt, if_true]
            exact ⟨le_of_lt (lt_of_le_of_lt h0 hlt), min_le_right _ _⟩
          · simp only [hlt, if_false]
            exact ⟨h0, h1⟩
        · simp only [hs, if_false]
          exact ⟨h0, h1⟩
      simp only [List.foldl_cons]
      exact ih _ hstep.1 hstep.2

/-- C1: for every input string the rule-based classifier's confidence is
`0.3 + normalized_score * 0.6` with the normalized score in `[0, 1]`, so the
confidence lies in `[0.3, 0.9]` inclusive. -/
theorem classify_confidence_range (t : String) :
    0 ≤ (classify_rule_best t).2 ∧ (classify_rule_best t).2 ≤ 1 ∧
    (classify_with_rules t).2 =
      3 / 10 + (classify_rule_best t).2 * (6 / 10) ∧
    3 / 10 ≤ (classify_with_rules t).2 ∧
    (classify_with_rules t).2 ≤ 9 / 10 := by
  have hb :=
    foldl_scoreStep_bounds (lowerStr t.data) INTENT_PATTERNS ("unknown", 0)
      le_rfl zero_le_one
  have hbest : 0 ≤ (classify_rule_best t).2 ∧ (classify_rule_best t).2 ≤ 1 := by
    simp only [classify_rule_best, ruleFold] at hb ⊢
    split
    · constructor <;> norm_num
    · exact hb
  have h1 : 0 ≤ (classify_rule_best t).2 * ((6 : Rat) / 10) :=
    mul_nonneg hbest.1 (by norm_num)
  have h2 : (classify_rule_best t).2 * ((6 : Rat) / 10) ≤ 6 / 10 := by
    nlinarith [hbest.2]
  refine ⟨hbest.1, hbest.2, rfl, ?_, ?_⟩
  · show (3 : Rat) / 10 ≤ 3 / 10 + (classify_rule_best t).2 * (6 / 10)
    linarith
  · show (3 : Rat) / 10 + (classify_rule_best t).2 * (6 / 10) ≤ 9 / 10
    linarith

/-- C2: when no intent pattern matches the (lowercased) input, the
classifier falls back to `llm_chat` with normalized score `0.5` if the input
is longer than 5 characters and to `unknown` with score `0` otherwise; the
embedding is a total function (the source never raises), and
`classify("")` returns `unknown` with confidence `0.3`. -/
theorem classify_nomatch_fallback (t : String)
    (h : ∀ pr ∈ INTENT_PATTERNS, ∀ p ∈ pr.2,
          searchB p (lowerStr t.data) = false) :
    classify_rule_best t =
      (if 5 < t.length then ("llm_chat", (1 : Rat) / 2) else ("unknown", 0)) ∧
    classify_with_rules t =
      (if 5 < t.length then ("llm_chat", (3 : Rat) / 5)
       else ("unknown", 3 / 10)) ∧
    classify_with_rules "" = ("unknown", 3 / 10) := by
  have hf : ruleFold (lowerStr t.data) = ("unknown", 0) :=
    foldl_scoreStep_id (lowerStr t.data) INTENT_PATTERNS ("unknown", 0) h
  have hbest : classify_rule_best t =
      (if 5 < t.length then ("llm_chat", (1 : Rat) / 2)
       else ("unknown", 0)) := by
    simp only [classify_rule_best, hf]
    by_cases hl : 5 < t.length <;> simp [hl]
  have h0 : classify_rule_best "" = ("unknown", (0 : Rat)) := rfl
  refine ⟨hbest, ?_, ?_⟩
  · simp only [classify_with_rules, hbest]
    by_cases hl : 5 < t.length
    · simp only [hl, if_true, Prod.ext_iff]
      norm_num
    · simp only [hl, if_false, Prod.ext_iff]
      norm_num
  · simp only [classify_with_rules, h0]
    norm_num [Prod.ext_iff]

/-- Witness for C2 at the concrete inputs `"zzzzzz"` (no pattern matches,
length `6 > 5`) and `""`. -/
theorem classify_nomatch_fallback_witness :
    classify_rule_best "zzzzzz" =
      (if 5 < ("zzzzzz" : String).length then ("llm_chat", (1 : Rat) / 2)
       else ("unknown", 0)) ∧
    classify_with_rules "zzzzzz" =
      (if 5 < ("zzzzzz" : String).length then ("llm_chat", (3 : Rat) / 5)
       else ("unknown", 3 / 10)) ∧
    classify_with_rules "" = ("unknown", 3 / 10) :=
  classify_nomatch_fallback "zzzzzz" (by decide)

/-- C4: evaluation of the classifier and extractor at the failing input
`"내일 오후 3시에 회의 잡아줘"`.  The code classifies it as `llm_chat`
(no `schedule_add` pattern matches: both require `일정` or `약속`), while
the repository's own test `test_rule_based_classification` and the spec
expect `schedule_add`.  Entity extraction does produce the expected
`date` entity `"내일"` and `time` entity `"오후 3시"`. -/
theorem classify_meeting_request_divergence :
    classify_with_rules "내일 오후 3시에 회의 잡아줘" = ("llm_chat", 3 / 5) ∧
    (∃ e ∈ extract_entities "내일 오후 3시에 회의 잡아줘",
        e.etype = "date" ∧ e.value = "내일") ∧
    (∃ e ∈ extract_entities "내일 오후 3시에 회의 잡아줘",
        e.etype = "time" ∧ e.value = "오후 3시") := by
  have hb : classify_rule_best "내일 오후 3시에 회의 잡아줘" =
      ("llm_chat", (1 : Rat) / 2) := rfl
  refine ⟨?_, by decide, by decide⟩
  simp only [classify_with_rules, hb]
  norm_num [Prod.ext_iff]

/-! ## Calendar dates

`datetime` values of `client/app/llm_agent.py` are modelled by their
proleptic-Gregorian calendar date; the time-of-day component plays no role
in the verified properties. -/

/-- A calendar date (as carried by a Python `datetime`). -/
structure Date where
  year : Int
  month : Nat
  day : Nat
deriving DecidableEq

/-- Gregorian leap year, as used by `datetime`. -/
def isLeap (y : Int) : Bool := (y % 4 = 0 ∧ y % 100 ≠ 0) ∨ y % 400 = 0

/-- Number of days in a month. -/
def daysInMonth (y : Int) (m : Nat) : Nat :=
  if m = 2 then (if isLeap y then 29 else 28)
  else if m = 4 ∨ m = 6 ∨ m = 9 ∨ m = 11 then 30
  else 31

/-- The next calendar day (`+ timedelta(days=1)`). -/
def succDay (d : Date) : Date :=
  if d.day < daysInMonth d.year d.month then ⟨d.year, d.month, d.day + 1⟩
  else if d.month < 12 then ⟨d.year, d.month + 1, 1⟩
  else ⟨d.year + 1, 1, 1⟩

/-- The previous calendar day (`- timedelta(days=1)`). -/
def predDay (d : Date) : Date :=
  if 1 < d.day then ⟨d.year, d.month, d.day - 1⟩
  else if 1 < d.month then ⟨d.year, d.month - 1, daysInMonth d.year (d.month - 1)⟩
  else ⟨d.year - 1, 12, 31⟩

/-- `+ timedelta(days=n)`. -/
def addDaysN : Nat → Date → Date
  | 0, d => d
  | n + 1, d => addDaysN n (succDay d)

/-- `- timedelta(days=n)`. -/
def subDaysN : Nat → Date → Date
  | 0, d => d
  | n + 1, d => subDaysN n (predDay d)

/-- Chronological order on dates (lexicographic on year, month, day). -/
def Date.le (a b : Date) : Prop :=
  a.year < b.year ∨
    (a.year = b.year ∧
      (a.month < b.month ∨ (a.month = b.month ∧ a.day ≤ b.day)))

instance (a b : Date) : Decidable (Date.le a b) := by
  unfold Date.le
  infer_instance

/-- Days of the year before month `m`. -/
def daysBeforeMonth (y : Int) (m : Nat) : Nat :=
  ((List.range (m - 1)).map (fun i => daysInMonth y (i + 1))).sum

/-- Rata-die ordinal (day 1 = 0001-01-01), as in `datetime.toordinal`. -/
def rataDie (d : Date) : Int :=
  365 * (d.year - 1) + (d.year - 1).fdiv 4 - (d.year - 1).fdiv 100 +
    (d.year - 1).fdiv 400 + (daysBeforeMonth d.year d.month : Int) +
    (d.day : Int)

/-- Python `datetime.weekday()`: Monday is `0`. -/
def pyWeekday (d : Date) : Nat := (((rataDie d - 1) % 7 + 7) % 7).toNat

/-! ## `_parse_date` (llm_agent.py)

`strptime` is modelled format by format.  CPython's `%m` directive is the
regex alternation `1[0-2]|0[1-9]|[1-9]`, `%d` is `3[01]|[12]\d|0[1-9]|[1-9]`
and `%Y` is four digits; after the regex matches the whole string,
constructing the `datetime` validates the day against the month (the default
year being 1900 for year-less formats); a failure tries the next format. -/

/-- First `some` produced by `f` along the list (backtracking order). -/
def firstSome (f : α → Option β) : List α → Option β
  | [] => none
  | x :: xs =>
      match f x with
      | some b => some b
      | none => firstSome f xs

/-- Digit value of a character. -/
def digitVal (c : Char) : Nat := c.toNat - ('0').toNat

/-- Candidate parses of `%m` (regex `1[0-2]|0[1-9]|[1-9]`), in regex
preference order, each with the remaining input. -/
def mCands : List Char → List (Nat × List Char)
  | c1 :: c2 :: rest =>
      (if c1 = '1' ∧ ('0' ≤ c2 ∧ c2 ≤ '2')
        then [(10 + digitVal c2, rest)] else []) ++
      (if c1 = '0' ∧ ('1' ≤ c2 ∧ c2 ≤ '9')
        then [(digitVal c2, rest)] else []) ++
      (if '1' ≤ c1 ∧ c1 ≤ '9' then [(digitVal c1, c2 :: rest)] else [])
  | [c1] => if '1' ≤ c1 ∧ c1 ≤ '9' then [(digitVal c1, [])] else []
  | [] => []

/-- Candidate parses of `%d` (regex `3[01]|[12]\d|0[1-9]|[1-9]`), in regex
preference order. -/
def dCands : List Char → List (Nat × List Char)
  | c1 :: c2 :: rest =>
      (if c1 = '3' ∧ (c2 = '0' ∨ c2 = '1')
        then [(30 + digitVal c2, rest)] else []) ++
      (if (c1 = '1' ∨ c1 = '2') ∧ c2.isDigit
        then [(digitVal c1 * 10 + digitVal c2, rest)] else []) ++
      (if c1 = '0' ∧ ('1' ≤ c2 ∧ c2 ≤ '9')
        then [(digitVal c2, rest)] else []) ++
      (if '1' ≤ c1 ∧ c1 ≤ '9' then [(digitVal c1, c2 :: rest)] else [])
  | [c1] => if '1' ≤ c1 ∧ c1 ≤ '9' then [(digitVal c1, [])] else []
  | [] => []

/-- Parse of `%Y` (four digits). -/
def yCand : List Char → Option (Nat × List Char)
  | a :: b :: c :: d :: rest =>
      if a.isDigit ∧ b.isDigit ∧ c.isDigit ∧ d.isDigit then
        some (((digitVal a * 10 + digitVal b) * 10 + digitVal c) * 10 +
          digitVal d, rest)
      else none
  | _ => none

/-- Regex phase of `strptime(s, "%Y<sep>%m<sep>%d")`: the whole string must
be consumed. -/
def parseYMDsep (sep : Char) (s : List Char) : Option (Nat × Nat × Nat) :=
  match yCand s with
  | none => none
  | some (y, r1) =>
      match r1 with
      | [] => none
      | c :: r2 =>
          if c = sep then
            firstSome
              (fun mc =>
                match mc.2 with
                | [] => none
                | c2 :: r4 =>
                    if c2 = sep then
                      firstSome
                        (fun dc =>
                          if dc.2 = ([] : List Char) then
                            some (y, mc.1, dc.1)
                          else none)
                        (dCands r4)
                    else none)
              (mCands r2)
          else none

/-- Regex phase of `strptime(s, "%m<sep>%d")`. -/
def parseMDsep (sep : Char) (s : List Char) : Option (Nat × Nat) :=
  firstSome
    (fun mc =>
      match mc.2 with
      | [] => none
      | c2 :: r4 =>
          if c2 = sep then
            firstSome
              (fun dc =>
                if dc.2 = ([] : List Char) then some (mc.1, dc.1) else none)
              (dCands r4)
          else none)
    (mCands s)

/-- Regex phase of `strptime(s, "%d일")`. -/
def parseDayIl (s : List Char) : Option Nat :=
  firstSome
    (fun dc => if dc.2 = [ '일' ] then some dc.1 else none)
    (dCands s)

/-- `strptime(s, "%Y<sep>%m<sep>%d")` including `datetime` validation. -/
def tryFormatYMD (sep : Char) (s : List Char) : Option (Int × Nat × Nat) :=
  (parseYMDsep sep s).bind
    (fun v =>
      if 1 ≤ v.1 ∧ 1 ≤ v.2.2 ∧ v.2.2 ≤ daysInMonth (v.1 : Int) v.2.1 then
        some ((v.1 : Int), v.2.1, v.2.2)
      else none)

/-- `strptime(s, "%m<sep>%d")`: the defaulted year is 1900, against which
the day is validated. -/
def tryFormatMD (sep : Char) (s : List Char) : Option (Int × Nat × Nat) :=
  (parseMDsep sep s).bind
    (fun v =>
      if 1 ≤ v.2 ∧ v.2 ≤ daysInMonth 1900 v.1 then some (1900, v.1, v.2)
      else none)

/-- `strptime(s, "%d일")`: defaults to January 1900; any day the `%d` regex
accepts (1–31) is valid in January. -/
def tryFormatDayIl (s : List Char) : Option (Int × Nat × Nat) :=
  (parseDayIl s).map (fun d => (1900, 1, d))

/-- The format cascade of `_parse_date`:
`%Y-%m-%d`, `%Y/%m/%d`, `%m/%d`, `%m-%d`, `%d일`, first success wins. -/
def tryFormats (s : List Char) : Option (Int × Nat × Nat) :=
  match tryFormatYMD '-' s with
  | some v => some v
  | none =>
      match tryFormatYMD '/' s with
      | some v => some v
      | none =>
          match tryFormatMD '/' s with
          | some v => some v
          | none =>
              match tryFormatMD '-' s with
              | some v => some v
              | none => tryFormatDayIl s

/-- Python `str.strip()`. -/
def stripList (s : List Char) : List Char :=
  ((s.dropWhile isSpaceCh).reverse.dropWhile isSpaceCh).reverse

/-- `LLMAgent._parse_date`.  The `clock` argument models the value returned
by the `datetime.now()` calls the source makes inside the function; the
source reads the clock ambiently, it does not take it as a parameter. -/
def parse_date (date_str : String) (clock : Date) : Date :=
  if date_str = "" then clock
  else
    let ds := stripList (lowerStr date_str.data)
    if ds = ("today" : String).data then clock
    else if ds = ("tomorrow" : String).data then addDaysN 1 clock
    else
      match tryFormats ds with
      | some v =>
          if v.1 = 1900 then ⟨clock.year, v.2.1, v.2.2⟩
          else ⟨v.1, v.2.1, v.2.2⟩
      | none => clock

/-- C10: a day-only token `"DD일"` parses to day `DD` in January of the
clock's current year: the month missing from the format defaults to `1`
(the `strptime` default), not to the current month, and the 1900 default
year is replaced by the clock's year. -/
theorem parse_day_only_defaults_to_january (d : Nat) (clock : Date)
    (h1 : 1 ≤ d) (h2 : d ≤ 31) :
    parse_date (toString d ++ "일") clock = ⟨clock.year, 1, d⟩ := by
  interval_cases d <;> rfl

/-- Witness for C10: `"11일"` parsed while the clock reads October 2024
resolves to January 11, 2024. -/
theorem parse_day_only_witness :
    parse_date "11일" ⟨2024, 10, 5⟩ = ⟨2024, 1, 11⟩ :=
  parse_day_only_defaults_to_january 11 ⟨2024, 10, 5⟩ (by decide) (by decide)

/-! ## C5: clock dependence

`_check_calendar` and `_parse_date` call `datetime.now()` internally; the
classifier and extractor never read a clock.  To state clock (in)dependence
each component is given the ambient clock value as an argument. -/

/-- `classify_intent` as invoked under an ambient clock: the source reads
no clock during classification. -/
def classify_clocked (text : String) (_clock : Date) : String × Rat :=
  classify_with_rules text

/-- `extract_entities` as invoked under an ambient clock: the source reads
no clock during extraction. -/
def extract_clocked (text : String) (_clock : Date) : List Entity :=
  extract_entities text

/-- C5 counterexample: `_parse_date` is not deterministic in its explicit
input alone — its only parameter is the token, and the result of
`parse_date "today"` changes with the ambient `datetime.now()` value,
because the source reads the global clock inside the engine. -/
theorem engine_reads_ambient_clock :
    parse_date "today" ⟨2024, 1, 1⟩ ≠ parse_date "today" ⟨2025, 6, 7⟩ := by
  decide

/-- C5 amended: the classifier and the entity extractor take no time input
and are deterministic in the text alone — their output is independent of
the ambient clock; the date/temporal components are deterministic only once
the ambient clock value is fixed alongside the explicit inputs. -/
theorem classifier_extractor_clock_independent (t : String) (c1 c2 : Date) :
    classify_clocked t c1 = classify_clocked t c2 ∧
    extract_clocked t c1 = extract_clocked t c2 :=
  ⟨rfl, rfl⟩

/-! ## `_check_calendar` date-range resolution -/

/-- The keyword arguments of the `check_calendar` tool call that
`_check_calendar` reads (`args.get(...)`); `none` models an absent key. -/
structure PeriodArgs where
  period_type : Option String
  relative : Option String
  year : Option Int
  month : Option Int
  start_date : Option String
  end_date : Option String
deriving DecidableEq

/-- The resolved `[start, end]` range (the `date_label` the source also
builds is presentation-only and not modelled). -/
structure DateRange where
  startDate : Date
  endDate : Date
deriving DecidableEq

/-- Python truthiness of an optional string (`if s:`): absent and `""` are
falsy. -/
def truthyStr : Option String → Option String
  | some s => if s = "" then none else some s
  | none => none

/-- Python truthiness of an optional int (`if month:`): absent and `0` are
falsy. -/
def truthyInt : Option Int → Option Int
  | some n => if n = 0 then none else some n
  | none => none

/-- `datetime(year, month, 1)`: raises `ValueError` (modelled `none`) for a
month outside `1..12`. -/
def mkDatetime (y : Int) (m : Int) (d : Nat) : Option Date :=
  if 1 ≤ m ∧ m ≤ 12 then some ⟨y, m.toNat, d⟩ else none

/-- `datetime.strptime(s, "%Y-%m-%d")` as used by `_check_calendar`. -/
def strptimeYMDdash (s : String) : Option Date :=
  (tryFormatYMD '-' s.data).map (fun v => ⟨v.1, v.2.1, v.2.2⟩)

/-- The `range` branch of `_check_calendar`: the two `strptime` calls run
inside one `try`, so a parse failure on either string resets both dates to
`now`; a missing `start_date` defaults to `now` and a missing `end_date`
defaults to the resolved start. -/
def rangeCase (sOpt eOpt : Option String) (now : Date) : Date × Date :=
  match truthyStr sOpt with
  | none =>
      match truthyStr eOpt with
      | none => (now, now)
      | some es =>
          match strptimeYMDdash es with
          | some e => (now, e)
          | none => (now, now)
  | some ss =>
      match strptimeYMDdash ss with
      | none => (now, now)
      | some s =>
          match truthyStr eOpt with
          | none => (s, s)
          | some es =>
              match strptimeYMDdash es with
              | some e => (s, e)
              | none => (now, now)

/-- The target `(year, month)` of the `month` branch: an explicit (truthy)
`month` argument wins, with the year from `args.get("year", now.year)`;
otherwise `relative` is used with explicit year rollover at the
December/January boundaries. -/
def monthTarget (a : PeriodArgs) (now : Date) : Int × Int :=
  let year := a.year.getD now.year
  match truthyInt a.month with
  | some m => (year, m)
  | none =>
      let relative := a.relative.getD "current"
      if relative = "current" then (now.year, (now.month : Int))
      else if relative = "next" then
        (if now.month = 12 then (now.year + 1, 1)
         else (now.year, (now.month : Int) + 1))
      else if relative = "previous" then
        (if now.month = 1 then (now.year - 1, 12)
         else (now.year, (now.month : Int) - 1))
      else (now.year, (now.month : Int))

/-- The date-range determination of `LLMAgent._check_calendar`.  `now`
models the `datetime.now()` the source reads at the top of the function;
`none` models the `ValueError` escape of an out-of-range explicit month
(caught by the enclosing `except`, which reports an error instead of a
range). -/
def resolveRange (a : PeriodArgs) (now : Date) : Option DateRange :=
  let period_type := a.period_type.getD "day"
  let relative := a.relative.getD "current"
  if period_type = "day" then
    let s :=
      match truthyStr a.start_date with
      | some ss =>
          match strptimeYMDdash ss with
          | some d => d
          | none => now
      | none =>
          if relative = "today" ∨ relative = "current" then now
          else if relative = "tomorrow" ∨ relative = "next" then addDaysN 1 now
          else if relative = "day_after" then addDaysN 2 now
          else if relative = "previous" then subDaysN 1 now
          else now
    some ⟨s, s⟩
  else if period_type = "week" then
    let dsm := pyWeekday now
    let s :=
      if relative = "current" then subDaysN dsm now
      else if relative = "next" then addDaysN 7 (subDaysN dsm now)
      else if relative = "previous" then subDaysN 7 (subDaysN dsm now)
      else subDaysN dsm now
    some ⟨s, addDaysN 6 s⟩
  else if period_type = "month" then
    let t := monthTarget a now
    match mkDatetime t.1 t.2 1 with
    | none => none
    | some s =>
        match
          (if t.2 = 12 then mkDatetime (t.1 + 1) 1 1
           else mkDatetime t.1 (t.2 + 1) 1) with
        | none => none
        | some e1 => some ⟨s, predDay e1⟩
  else if period_type = "range" then
    let p := rangeCase a.start_date a.end_date now
    some ⟨p.1, p.2⟩
  else some ⟨now, now⟩

/-! ## Order lemmas for dates -/

theorem dateLe_refl (d : Date) : Date.le d d := by
  unfold Date.le
  omega

theorem dateLe_trans {a b c : Date} (h1 : Date.le a b) (h2 : Date.le b c) :
    Date.le a c := by
  unfold Date.le at h1 h2 ⊢
  omega

theorem dateLe_succDay (d : Date) : Date.le d (succDay d) := by
  unfold succDay Date.le
  split
  · exact Or.inr ⟨rfl, Or.inr ⟨rfl, Nat.le_succ _⟩⟩
  · split
    · exact Or.inr ⟨rfl, Or.inl (Nat.lt_succ_self _)⟩
    · exact Or.inl (show d.year < d.year + 1 by omega)

theorem dateLe_addDaysN (n : Nat) (d : Date) : Date.le d (addDaysN n d) := by
  induction n generalizing d with
  | zero => exact dateLe_refl d
  | succ n ih => exact dateLe_trans (dateLe_succDay d) (ih (succDay d))

theorem daysInMonth_pos (y : Int) (m : Nat) : 1 ≤ daysInMonth y m := by
  unfold daysInMonth
  split
  · split <;> omega
  · split <;> omega

/-- Shape of the `month` branch of `_check_calendar`: when the two
`datetime` constructions succeed for target year `ty` and month `tm`, the
month is in `1..12` and the range starts on the first day of the target
month and ends on its last day (the first day of the following month minus
one day, including the December-to-January rollover of the end
computation). -/
theorem month_match_shape (ty tm : Int) (r : DateRange)
    (hr : (match mkDatetime ty tm 1 with
           | none => none
           | some s =>
               match
                 (if tm = 12 then mkDatetime (ty + 1) 1 1
                  else mkDatetime ty (tm + 1) 1) with
               | none => none
               | some e1 => some (⟨s, predDay e1⟩ : DateRange)) = some r) :
    1 ≤ tm ∧ tm ≤ 12 ∧
    r.startDate = ⟨ty, tm.toNat, 1⟩ ∧
    r.endDate = ⟨ty, tm.toNat, daysInMonth ty tm.toNat⟩ := by
  rcases h1 : mkDatetime ty tm 1 with _ | s
  · rw [h1] at hr
    simp at hr
  · rw [h1] at hr
    have hbs : (1 ≤ tm ∧ tm ≤ 12) ∧ s = ⟨ty, tm.toNat, 1⟩ := by
      unfold mkDatetime at h1
      split at h1
      case isTrue h => exact ⟨h, (Option.some.inj h1).symm⟩
      case isFalse => exact absurd h1 (by simp)
    obtain ⟨⟨hL, hU⟩, hs⟩ := hbs
    by_cases h12 : tm = 12
    · subst h12
      have hrr : r = ⟨s, predDay ⟨ty + 1, 1, 1⟩⟩ := (Option.some.inj hr).symm
      have hpd : predDay ⟨ty + 1, 1, 1⟩ = ⟨ty, 12, 31⟩ := by
        unfold predDay
        norm_num
      refine ⟨by norm_num, by norm_num, ?_, ?_⟩
      · rw [hrr, hs]
      · rw [hrr, hpd]
        rfl
    · interval_cases tm <;>
        first
          | exact absurd rfl h12
          | exact ⟨by norm_num, by norm_num,
              by rw [← Option.some.inj hr, hs],
              by rw [← Option.some.inj hr]; rfl⟩

/-- Concrete `month` query for `relative = next`. -/
def monthNextArgs : PeriodArgs :=
  ⟨some "month", some "next", none, none, none, none⟩

/-- Concrete `month` query for `relative = previous`. -/
def monthPrevArgs : PeriodArgs :=
  ⟨some "month", some "previous", none, none, none, none⟩

/-- C3: a `month` query resolved via `relative` rolls the target month over
the year boundary (`next` from December targets January of `year + 1`,
`previous` from January targets December of `year - 1`), and every
successfully resolved month range starts on the first day of the target
month and ends on the last day of the target month — the first day of the
following month minus one day, December-to-January rollover included. -/
theorem month_resolution_rollover :
    resolveRange monthNextArgs ⟨2024, 12, 15⟩ =
      some ⟨⟨2025, 1, 1⟩, ⟨2025, 1, 31⟩⟩ ∧
    resolveRange monthPrevArgs ⟨2025, 1, 10⟩ =
      some ⟨⟨2024, 12, 1⟩, ⟨2024, 12, 31⟩⟩ ∧
    (∀ (a : PeriodArgs) (now : Date) (r : DateRange),
      a.period_type = some "month" → resolveRange a now = some r →
      ∃ (ty : Int) (tm : Nat), 1 ≤ tm ∧ tm ≤ 12 ∧
        r.startDate = ⟨ty, tm, 1⟩ ∧
        r.endDate = ⟨ty, tm, daysInMonth ty tm⟩ ∧
        (truthyInt a.month = none → a.relative = some "next" →
          now.month = 12 → ty = now.year + 1 ∧ tm = 1) ∧
        (truthyInt a.month = none → a.relative = some "previous" →
          now.month = 1 → ty = now.year - 1 ∧ tm = 12)) := by
  refine ⟨by decide, by decide, ?_⟩
  intro a now r hp hr
  simp only [resolveRange] at hr
  split at hr
  · next h =>
      rw [hp] at h
      exact absurd h (by decide)
  · split at hr
    · next h =>
        rw [hp] at h
        exact absurd h (by decide)
    · split at hr
      · obtain ⟨hL, hU, hstart, hend⟩ := month_match_shape _ _ r hr
        refine ⟨(monthTarget a now).1, (monthTarget a now).2.toNat,
          by omega, by omega, hstart, hend, ?_, ?_⟩
        · intro hm hrel h12m
          simp [monthTarget, hm, hrel, h12m]
        · intro hm hrel h1m
          simp [monthTarget, hm, hrel, h1m]
      · next h =>
          rw [hp] at h
          exact absurd (by decide) h

/-- Witness for C3 at the year-rollover input: `relative = next` anchored on
2024-12-15 yields January 2025, first through last day. -/
theorem month_resolution_rollover_witness :
    ∃ (ty : Int) (tm : Nat), 1 ≤ tm ∧ tm ≤ 12 ∧
      (⟨⟨2025, 1, 1⟩, ⟨2025, 1, 31⟩⟩ : DateRange).startDate = ⟨ty, tm, 1⟩ ∧
      (⟨⟨2025, 1, 1⟩, ⟨2025, 1, 31⟩⟩ : DateRange).endDate =
        ⟨ty, tm, daysInMonth ty tm⟩ ∧
      (truthyInt monthNextArgs.month = none →
        monthNextArgs.relative = some "next" →
        (⟨2024, 12, 15⟩ : Date).month = 12 →
        ty = (⟨2024, 12, 15⟩ : Date).year + 1 ∧ tm = 1) ∧
      (truthyInt monthNextArgs.month = none →
        monthNextArgs.relative = some "previous" →
        (⟨2024, 12, 15⟩ : Date).month = 1 →
        ty = (⟨2024, 12, 15⟩ : Date).year - 1 ∧ tm = 12) :=
  month_resolution_rollover.2.2 monthNextArgs ⟨2024, 12, 15⟩
    ⟨⟨2025, 1, 1⟩, ⟨2025, 1, 31⟩⟩ rfl (by decide)

/-- C9 counterexample: a `range` query whose `end_date` precedes its
`start_date` produces a `DateRange` with `start > end`, refuting the claim
that every produced range satisfies `start <= end`. -/
theorem range_order_violation :
    resolveRange ⟨some "range", none, none, none,
        some "2024-12-20", some "2024-12-11"⟩ ⟨2024, 12, 15⟩ =
      some ⟨⟨2024, 12, 20⟩, ⟨2024, 12, 11⟩⟩ ∧
    ¬ Date.le (⟨2024, 12, 20⟩ : Date) ⟨2024, 12, 11⟩ :=
  ⟨by decide, by decide⟩

/-- C9 amended: every `DateRange` produced for a `Day`, `Week`, `Month` or
unknown-type period query satisfies `start <= end`; only `Range` queries
(whose dates come straight from the caller's strings) can violate the
invariant. -/
theorem resolved_range_ordered (a : PeriodArgs) (now : Date) (r : DateRange)
    (hr : resolveRange a now = some r)
    (hnr : a.period_type.getD "day" ≠ "range") :
    Date.le r.startDate r.endDate := by
  simp only [resolveRange] at hr
  split at hr
  · rw [← Option.some.inj hr]
    dsimp only
    exact dateLe_refl _
  · split at hr
    · rw [← Option.some.inj hr]
      dsimp only
      exact dateLe_addDaysN 6 _
    · split at hr
      · obtain ⟨hL, hU, hstart, hend⟩ := month_match_shape _ _ r hr
        rw [hstart, hend]
        exact Or.inr ⟨rfl, Or.inr ⟨rfl, daysInMonth_pos _ _⟩⟩
      · rw [← Option.some.inj hr]
        dsimp only
        exact dateLe_refl _

/-- Witness for C9 (amended form) at a concrete day query. -/
theorem resolved_range_ordered_witness :
    ∃ r, resolveRange ⟨some "day", some "today", none, none, none, none⟩
        ⟨2024, 12, 15⟩ = some r ∧ Date.le r.startDate r.endDate :=
  ⟨⟨⟨2024, 12, 15⟩, ⟨2024, 12, 15⟩⟩, by decide,
    resolved_range_ordered ⟨some "day", some "today", none, none, none, none⟩
      ⟨2024, 12, 15⟩ ⟨⟨2024, 12, 15⟩, ⟨2024, 12, 15⟩⟩
      (by decide) (by decide)⟩

/-- C8 counterexample: with a parseable `start_date` and a missing
`end_date`, the range resolves to the single day of the parsed start, not
to `now` — so it is false that both dates default to `now` whenever either
is missing. -/
theorem range_missing_end_defaults_to_start :
    resolveRange ⟨some "range", none, none, none, some "2024-12-11", none⟩
        ⟨2025, 1, 5⟩ =
      some ⟨⟨2024, 12, 11⟩, ⟨2024, 12, 11⟩⟩ ∧
    (⟨⟨2024, 12, 11⟩, ⟨2024, 12, 11⟩⟩ : DateRange) ≠
      ⟨⟨2025, 1, 5⟩, ⟨2025, 1, 5⟩⟩ :=
  ⟨by decide, by decide⟩

/-- C8 amended: for a `Range` query, start and end come directly from the
parsed `start_date`/`end_date`; a present but unparseable date (on either
side) defaults both to `now`; a missing `start_date` defaults the start to
`now`; a missing `end_date` defaults the end to the resolved start (a
single-day range at the start), not to `now`. -/
theorem range_resolution_defaults (a : PeriodArgs) (now : Date) (r : DateRange)
    (hp : a.period_type = some "range")
    (hr : resolveRange a now = some r) :
    (∀ ss es sd ed, truthyStr a.start_date = some ss →
      truthyStr a.end_date = some es → strptimeYMDdash ss = some sd →
      strptimeYMDdash es = some ed → r = ⟨sd, ed⟩) ∧
    (((∃ ss, truthyStr a.start_date = some ss ∧ strptimeYMDdash ss = none) ∨
      (∃ es, truthyStr a.end_date = some es ∧ strptimeYMDdash es = none)) →
      r = ⟨now, now⟩) ∧
    (truthyStr a.start_date = none → r.startDate = now) ∧
    (truthyStr a.end_date = none → r.endDate = r.startDate) := by
  have hrr : r = ⟨(rangeCase a.start_date a.end_date now).1,
      (rangeCase a.start_date a.end_date now).2⟩ := by
    simp only [resolveRange] at hr
    split at hr
    · next h =>
        rw [hp] at h
        exact absurd h (by decide)
    · split at hr
      · next h =>
          rw [hp] at h
          exact absurd h (by decide)
      · split at hr
        · next h =>
            rw [hp] at h
            exact absurd h (by decide)
        · split at hr
          · exact (Option.some.inj hr).symm
          · next h =>
              rw [hp] at h
              exact absurd (by decide) h
  subst hrr
  refine ⟨?_, ?_, ?_, ?_⟩
  · intro ss es sd ed hss hes hsd hed
    simp [rangeCase, hss, hes, hsd, hed]
  · intro h
    rcases h with ⟨ss, hss, hbad⟩ | ⟨es, hes, hbad⟩
    · simp [rangeCase, hss, hbad]
    · rcases hts : truthyStr a.start_date with _ | ss2
      · simp [rangeCase, hts, hes, hbad]
      · rcases hsp : strptimeYMDdash ss2 with _ | sd2
        · simp [rangeCase, hts, hsp]
        · simp [rangeCase, hts, hsp, hes, hbad]
  · intro h
    rcases hes : truthyStr a.end_date with _ | es2
    · simp [rangeCase, h, hes]
    · rcases hep : strptimeYMDdash es2 with _ | ed2
      · simp [rangeCase, h, hes, hep]
      · simp [rangeCase, h, hes, hep]
  · intro h
    rcases hts : truthyStr a.start_date with _ | ss2
    · simp [rangeCase, hts, h]
    · rcases hsp : strptimeYMDdash ss2 with _ | sd2
      · simp [rangeCase, hts, hsp, h]
      · simp [rangeCase, hts, hsp, h]

/-- Concrete `range` query with both dates present and parseable. -/
def rangeBothArgs : PeriodArgs :=
  ⟨some "range", none, none, none, some "2024-12-11", some "2024-12-13"⟩

/-- Witness for C8 (amended form): both dates present and parseable are
taken directly. -/
theorem range_resolution_defaults_witness :
    ∃ r : DateRange, resolveRange rangeBothArgs ⟨2025, 1, 5⟩ = some r ∧
      r = ⟨⟨2024, 12, 11⟩, ⟨2024, 12, 13⟩⟩ :=
  ⟨⟨⟨2024, 12, 11⟩, ⟨2024, 12, 13⟩⟩, by decide,
    (range_resolution_defaults rangeBothArgs ⟨2025, 1, 5⟩
        ⟨⟨2024, 12, 11⟩, ⟨2024, 12, 13⟩⟩ rfl (by decide)).1
      "2024-12-11" "2024-12-13" ⟨2024, 12, 11⟩ ⟨2024, 12, 13⟩
      (by decide) (by decide) (by decide) (by decide)⟩

/-! ## `GoogleCalendarService` event construction -/

/-- The `freq_map` of `_build_recurrence_rule`. -/
def freq_map : List (String × String) :=
  [("yearly", "YEARLY"), ("monthly", "MONTHLY"),
   ("weekly", "WEEKLY"), ("daily", "DAILY")]

/-- `dict.get` lookup over an association list. -/
def lookupStr (k : String) : List (String × String) → Option String
  | [] => none
  | (a, b) :: rest => if k = a then some b else lookupStr k rest

/-- `GoogleCalendarService._build_recurrence_rule`: maps the lowercased
keyword through `freq_map`; an unrecognized keyword yields `None`; the
produced RRULE always carries `COUNT={count}` (`count` defaults to 10). -/
def build_recurrence_rule (recurrence : String) (count : Int := 10) :
    Option String :=
  match lookupStr (String.mk (lowerStr recurrence.data)) freq_map with
  | none => none
  | some freq => some ("RRULE:FREQ=" ++ freq ++ ";COUNT=" ++ toString count)

/-- The all-day event value built by `create_all_day_event` (the fields the
source sends to the calendar API; `end` is exclusive). -/
structure AllDayEvent where
  summary : String
  startDate : Date
  endDate : Date
  recurrence : Option String
deriving DecidableEq

/-- `GoogleCalendarService.create_all_day_event`: without an `end_date` the
event covers one day (`end = start + 1`, exclusive); a truthy `recurrence`
keyword is turned into an RRULE via `_build_recurrence_rule`. -/
def create_all_day_event (title : String) (start_date : Date)
    (end_date : Option Date) (recurrence : Option String)
    (recurrence_count : Int) : AllDayEvent :=
  { summary := title,
    startDate := start_date,
    endDate := end_date.getD (addDaysN 1 start_date),
    recurrence :=
      match truthyStr recurrence with
      | some r => build_recurrence_rule r recurrence_count
      | none => none }

/-- The calendar write issued by `_add_calendar_event`: either an all-day
event (single or multi-day) via `create_all_day_event`, or a timed event
via `create_event`. -/
inductive CalendarCall where
  | allDay (ev : AllDayEvent)
  | timed (title : String) (day : Date) (hour minute : Nat)
      (durationMin : Int) (recurrence : Option String)
deriving DecidableEq

/-- Value of a digit string. -/
def natOfDigits (cs : List Char) : Nat :=
  cs.foldl (fun a c => a * 10 + digitVal c) 0

/-- `hour, minute = map(int, time_str.split(":"))` with the source's
`except` fallback to `(9, 0)` (plain digit tokens modelled for `int`). -/
def parseHM (time_str : String) : Nat × Nat :=
  match time_str.splitOn ":" with
  | [h, m] =>
      if h ≠ "" ∧ h.data.all Char.isDigit ∧ m ≠ "" ∧ m.data.all Char.isDigit
      then (natOfDigits h.data, natOfDigits m.data)
      else (9, 0)
  | _ => (9, 0)

/-- The keyword arguments of the `add_calendar_event` tool call read by
`_add_calendar_event`. -/
structure AddEventArgs where
  title : Option String
  date : Option String
  start_date : Option String
  end_date : Option String
  time : Option String
  duration : Option Int
  is_all_day : Option Bool
  recurrence : Option String
  recurrence_count : Option Int
deriving DecidableEq

/-- `LLMAgent._add_calendar_event`.  `clock` models the `datetime.now()`
values read inside `_parse_date`.  A truthy `end_date` forces the all-day
multi-day branch with exclusive end `parsed end_date + 1 day`, regardless
of `is_all_day`; otherwise a truthy `is_all_day` or a missing `time` gives
a single all-day event; otherwise a timed event is created (`none` models
the `ValueError` of `datetime.replace` on an out-of-range parsed hour or
minute, caught by the enclosing `except`). -/
def add_calendar_event (a : AddEventArgs) (clock : Date) :
    Option CalendarCall :=
  let title := a.title.getD "새 일정"
  let start_date_str := a.start_date.getD (a.date.getD "today")
  let start_date := parse_date start_date_str clock
  let recurrence_count := a.recurrence_count.getD 10
  match truthyStr a.end_date with
  | some es =>
      let end_date := addDaysN 1 (parse_date es clock)
      some (.allDay (create_all_day_event title start_date (some end_date)
        a.recurrence recurrence_count))
  | none =>
      if a.is_all_day.getD false = true ∨ truthyStr a.time = none then
        some (.allDay (create_all_day_event title start_date none
          a.recurrence recurrence_count))
      else
        match truthyStr a.time with
        | none => none
        | some ts =>
            let hm := parseHM ts
            if hm.1 ≤ 23 ∧ hm.2 ≤ 59 then
              some (.timed title start_date hm.1 hm.2 (a.duration.getD 60)
                (match truthyStr a.recurrence with
                 | some r => build_recurrence_rule r recurrence_count
                 | none => none))
            else none

/-- C6: whenever `end_date` is present (truthy), the built event is an
all-day event spanning the end-exclusive interval
`[parsed start_date, parsed end_date + 1 day)`, regardless of the value of
`is_all_day`; in particular `start_date = 2024-12-11`,
`end_date = 2024-12-13` yields an all-day event ending (exclusively) on
2024-12-14. -/
theorem build_event_end_date_all_day :
    (∀ (a : AddEventArgs) (clock : Date) (es : String),
      truthyStr a.end_date = some es →
      add_calendar_event a clock =
        some (.allDay (create_all_day_event (a.title.getD "새 일정")
          (parse_date (a.start_date.getD (a.date.getD "today")) clock)
          (some (addDaysN 1 (parse_date es clock)))
          a.recurrence (a.recurrence_count.getD 10)))) ∧
    (∀ b : Bool,
      add_calendar_event
        ⟨some "출장", none, some "2024-12-11", some "2024-12-13", none, none,
         some b, none, none⟩ ⟨2024, 6, 1⟩ =
        some (.allDay ⟨"출장", ⟨2024, 12, 11⟩, ⟨2024, 12, 14⟩, none⟩)) := by
  constructor
  · intro a clock es hes
    simp only [add_calendar_event, hes]
  · intro b
    cases b <;> decide

/-- Witness for C6 at the concrete 2024-12-11 … 2024-12-13 trip. -/
theorem build_event_end_date_all_day_witness :
    add_calendar_event
      ⟨some "출장", none, some "2024-12-11", some "2024-12-13", none, none,
       some false, none, none⟩ ⟨2024, 6, 1⟩ =
      some (.allDay (create_all_day_event "출장"
        (parse_date "2024-12-11" ⟨2024, 6, 1⟩)
        (some (addDaysN 1 (parse_date "2024-12-13" ⟨2024, 6, 1⟩)))
        none 10)) :=
  build_event_end_date_all_day.1
    ⟨some "출장", none, some "2024-12-11", some "2024-12-13", none, none,
     some false, none, none⟩ ⟨2024, 6, 1⟩ "2024-12-13" (by decide)

/-- C7: the recurrence builder maps `yearly`/`monthly`/`weekly`/`daily`
(case-insensitively) to the corresponding frequency; any unrecognized
keyword yields `none` rather than an error; the `count` argument defaults
to 10; and every rule it produces carries `COUNT={count}` — the produced
specification is never unbounded.  In particular
`build("monthly")` with the count unset yields `FREQ=MONTHLY;COUNT=10`. -/
theorem recurrence_builder_spec :
    (∀ c : Int, build_recurrence_rule "yearly" c =
      some ("RRULE:FREQ=YEARLY;COUNT=" ++ toString c)) ∧
    (∀ c : Int, build_recurrence_rule "monthly" c =
      some ("RRULE:FREQ=MONTHLY;COUNT=" ++ toString c)) ∧
    (∀ c : Int, build_recurrence_rule "weekly" c =
      some ("RRULE:FREQ=WEEKLY;COUNT=" ++ toString c)) ∧
    (∀ c : Int, build_recurrence_rule "daily" c =
      some ("RRULE:FREQ=DAILY;COUNT=" ++ toString c)) ∧
    (∀ (r : String) (c : Int),
      String.mk (lowerStr r.data) ∉ ["yearly", "monthly", "weekly", "daily"] →
      build_recurrence_rule r c = none) ∧
    build_recurrence_rule "monthly" = some "RRULE:FREQ=MONTHLY;COUNT=10" ∧
    (∀ (r : String) (c : Int) (s : String), build_recurrence_rule r c = some s →
      ∃ f, (f = "YEARLY" ∨ f = "MONTHLY" ∨ f = "WEEKLY" ∨ f = "DAILY") ∧
        s = "RRULE:FREQ=" ++ f ++ ";COUNT=" ++ toString c) := by
  refine ⟨fun c => rfl, fun c => rfl, fun c => rfl, fun c => rfl, ?_, rfl, ?_⟩
  · intro r c hmem
    simp only [List.mem_cons, List.mem_singleton, not_or] at hmem
    obtain ⟨h1, h2, h3, h4⟩ := hmem
    simp only [build_recurrence_rule, lookupStr, freq_map, h1, h2, h3, h4,
      if_false]
  · intro r c s h
    simp only [build_recurrence_rule] at h
    rcases hl : lookupStr (String.mk (lowerStr r.data)) freq_map with _ | f
    · rw [hl] at h
      exact absurd h (by simp)
    · rw [hl] at h
      have hf : f = "YEARLY" ∨ f = "MONTHLY" ∨ f = "WEEKLY" ∨ f = "DAILY" := by
        simp only [lookupStr, freq_map] at hl
        split at hl
        · exact Or.inl (Option.some.inj hl).symm
        · split at hl
          · exact Or.inr (Or.inl (Option.some.inj hl).symm)
          · split at hl
            · exact Or.inr (Or.inr (Or.inl (Option.some.inj hl).symm))
            · split at hl
              · exact Or.inr (Or.inr (Or.inr (Option.some.inj hl).symm))
              · exact absurd hl (by simp)
      exact ⟨f, hf, (Option.some.inj h).symm⟩

/-- Witness for C7: an unrecognized keyword yields no recurrence. -/
theorem recurrence_builder_spec_witness :
    build_recurrence_rule "fortnightly" 5 = none :=
  recurrence_builder_spec.2.2.2.2.1 "fortnightly" 5 (by decide)
